import Mathlib

/-!
Verification of the authentication / authorization core of the
`kouhenrui/fastify` service backend against its natural-language
specification.

The development shallowly embeds:
* the credential codec `sign` / `verify` / `decode`
  (src/unnamed/part_008, a revision of src/utils/token/index.ts), with the
  external `jsonwebtoken` library modelled at its boundary;
* the Redis-backed session cache (RedisService in src/unnamed/part_008);
* `AuthService.login` and `AuthService.resetPassword`
  (src/src/service/auth.service.ts);
* `ORMManager.checkPermission`, `extractResourceFromPath`,
  `extractActionFromMethod` and `initializeORMManager`
  (src/src/middleware/index.ts), with `PrismaManager.checkPermission`
  (src/src/config/casbin/prismaManager.ts);
* the casbin matcher, modelled from the spec because the repository's
  `model.conf` file is not present in the snapshot.

Time is threaded explicitly: `nowMs` is the value of `Date.now()` in
milliseconds.  Randomness (UUID session handles) is threaded as an explicit
parameter.  Machine integers are modelled as `Nat` (all quantities involved
are non-negative and far from any overflow boundary in the source).

The file is laid out definitions first, theorems second.
-/

namespace Fastify

/-! ## Definitions: configuration and the credential codec -/

/-- The `KEY` configuration object (src/unnamed/part_021), restricted to the
fields the verified components read.  The `expiresIn` field is referenced by
`sign` and `AuthService.login` but is absent from the configuration file in
this snapshot; it is modelled from the spec as the process-wide credential
lifetime constant, and — following the code comment `KEY.expiresIn是毫秒`
and the test mock `expiresIn: 86400000` — its unit is milliseconds. -/
structure KeyConfig where
  secretKey : String
  serverName : String
  /-- credential lifetime, in milliseconds -/
  expiresIn : Nat
  apiVersion : String
  nodeEnv : String
deriving DecidableEq, Repr

/-- The `TokenPayload` interface of src/unnamed/part_008: identity claims
supplied by the caller of `sign`.  The open index signature
`[key: string]: any` is modelled as a list of opaque extension fields; a
valid credential payload carries no reserved registered claim
(`exp`, `nbf`, `iat`, `iss`, `aud`, `sub`), since `jwt.sign` rejects a
payload that duplicates one of the claims injected by its options. -/
structure TokenPayload where
  id : String
  username : Option String
  email : Option String
  role : List String
  extra : List (String × String)
deriving DecidableEq, Repr

/-- The claim set of an encoded token: the caller payload plus the
registered claims injected by `jwt.sign` (`iat`, `exp` in Unix seconds,
and `iss` / `aud` / `sub` from the sign options).  `nbf` is never set by
this codebase's `sign` but can occur in externally crafted tokens, which
`jwt.verify` still checks. -/
structure JwtClaims where
  payload : TokenPayload
  iss : String
  aud : String
  sub : String
  iat : Nat
  exp : Nat
  nbf : Option Nat
deriving DecidableEq, Repr

/-- A three-segment credential string, modelled at the boundary of the
`jsonwebtoken` library: a structurally well-formed token decodes to its
claim set and signature segment, anything else is malformed.  Equality of
`Token` values corresponds to byte equality of the encoded strings (the
base64url/JSON encoding is injective). -/
inductive Token
  | signed (claims : JwtClaims) (sig : String)
  | malformed (raw : String)
deriving DecidableEq, Repr

/-- The symmetric signature over the encoded header and claims, modelled at
the library boundary (spec §6: the concrete algorithm is deployment
configuration).  Any concrete function of the secret and the claims serves
the model: `verify` recomputes it on the received claims and compares it
with the received signature segment. -/
def macSig (secret : String) (c : JwtClaims) : String :=
  secret ++ "|" ++ c.iss ++ "|" ++ c.aud ++ "|" ++ c.sub ++ "|" ++
    c.payload.id ++ "|" ++ toString c.iat ++ "|" ++ toString c.exp

/-- The distinct rejection reasons of `jwt.verify` plus the repository's own
`ErrorFactory.crypto` rejection; every one of them is an instance of the
spec's `InvalidCredential` condition. -/
inductive VerifyError
  | malformedToken
  | invalidSignature
  | notActive
  | expired
  | audienceMismatch
  | issuerMismatch
  | subjectMismatch
deriving DecidableEq, Repr

/-- Model of `jwt.sign(payload, secret, options)` with options
`expiresIn` (a number), `audience`, `subject`, `issuer`: the library sets
`iat = floor(Date.now()/1000)` and — interpreting a *numeric* `expiresIn`
option as a count of **seconds** — `exp = iat + expiresIn`, then signs. -/
def jwtSign (payload : TokenPayload) (secret : String) (expiresInOpt : Nat)
    (audience subject issuer : String) (nowMs : Nat) : Token :=
  let iat := nowMs / 1000
  let claims : JwtClaims :=
    { payload := payload, iss := issuer, aud := audience, sub := subject
      iat := iat, exp := iat + expiresInOpt, nbf := none }
  .signed claims (macSig secret claims)

/-- Model of `jwt.verify(token, secret, options)` with `audience`,
`issuer`, `subject` options, at clock time `nowMs`.  Checks, in the
library's order: structure, signature, `nbf` (not-before), `exp`
(expired iff `floor(now/1000) ≥ exp`), then the audience, issuer and
subject claims against the options. -/
def jwtVerify (tok : Token) (secret : String)
    (audience issuer subject : String) (nowMs : Nat) :
    Except VerifyError JwtClaims :=
  match tok with
  | .malformed _ => .error .malformedToken
  | .signed claims sig =>
    if sig ≠ macSig secret claims then .error .invalidSignature
    else
      match claims.nbf with
      | some n =>
        if nowMs / 1000 < n then .error .notActive
        else if claims.exp ≤ nowMs / 1000 then .error .expired
        else if claims.aud ≠ audience then .error .audienceMismatch
        else if claims.iss ≠ issuer then .error .issuerMismatch
        else if claims.sub ≠ subject then .error .subjectMismatch
        else .ok claims
      | none =>
        if claims.exp ≤ nowMs / 1000 then .error .expired
        else if claims.aud ≠ audience then .error .audienceMismatch
        else if claims.iss ≠ issuer then .error .issuerMismatch
        else if claims.sub ≠ subject then .error .subjectMismatch
        else .ok claims

/-- The `signRes` interface of src/unnamed/part_008. -/
structure SignRes where
  token : Token
  /-- absolute expiry timestamp reported to the caller, in Unix seconds -/
  expiresAt : Nat
deriving DecidableEq, Repr

/-- `sign` from src/unnamed/part_008 lines 19–36: signs the payload with
options `expiresIn := KEY.expiresIn`, `audience`/`subject`/`issuer` all the
fixed service name, and separately reports
`expiresAt = floor(Date.now()/1000) + floor(KEY.expiresIn/1000)`. -/
def sign (payload : TokenPayload) (cfg : KeyConfig) (nowMs : Nat) : SignRes :=
  let token := jwtSign payload cfg.secretKey cfg.expiresIn
    cfg.serverName cfg.serverName cfg.serverName nowMs
  { token := token, expiresAt := nowMs / 1000 + cfg.expiresIn / 1000 }

/-- `verify` from src/unnamed/part_008 lines 43–54: delegates to
`jwt.verify` with audience/issuer/subject all the fixed service name and
returns the embedded payload.  The source's extra guard rejecting a
string-typed result concerns tokens whose payload is a bare string, which
the structured `Token` model does not produce; every rejection is surfaced
as an `InvalidCredential` condition. -/
def verify (tok : Token) (cfg : KeyConfig) (nowMs : Nat) :
    Except VerifyError TokenPayload :=
  (jwtVerify tok cfg.secretKey cfg.serverName cfg.serverName cfg.serverName
    nowMs).map (fun c => c.payload)

/-- The signature segment of a token (empty for a malformed token). -/
def sigSegment : Token → String
  | .signed _ s => s
  | .malformed _ => ""

/-- Replace the character at position `i` of `s` by `c`. -/
def setCharAt (s : String) (i : Nat) (c : Char) : String :=
  ⟨s.data.set i c⟩

/-- Flip one character of a token's signature segment, leaving the rest of
the token unchanged. -/
def tamperSig (tok : Token) (i : Nat) (c : Char) : Token :=
  match tok with
  | .signed claims s => .signed claims (setCharAt s i c)
  | .malformed raw => .malformed raw

/-! ## Definitions: test fixtures (mirroring test/utils/token/token.test.ts) -/

/-- The configuration the repository's token tests mock:
`secretKey: "test-secret-key-for-jwt"`, `expiresIn: 86400000` (24 hours in
milliseconds), `serverName: "test-fastify-app"`. -/
def testCfg : KeyConfig :=
  { secretKey := "test-secret-key-for-jwt"
    serverName := "test-fastify-app"
    expiresIn := 86400000
    apiVersion := "v1"
    nodeEnv := "development" }

/-- The `mockPayload` of the token tests. -/
def testPayload : TokenPayload :=
  { id := "user123"
    username := some "testuser"
    email := some "test@example.com"
    role := ["admin", "user"]
    extra := [] }

/-- An externally crafted claim set whose audience differs from the fixed
service identity. -/
def claimsBadAud : JwtClaims :=
  { payload := testPayload, iss := "test-fastify-app"
    aud := "wrong-audience", sub := "test-fastify-app"
    iat := 0, exp := 100, nbf := none }

/-- An externally crafted claim set that expired at Unix second 5. -/
def claimsExpired : JwtClaims :=
  { payload := testPayload, iss := "test-fastify-app"
    aud := "test-fastify-app", sub := "test-fastify-app"
    iat := 0, exp := 5, nbf := none }

/-- A well-formed claim set matching the fixed service identity, valid
until Unix second 100. -/
def claimsGood : JwtClaims :=
  { payload := testPayload, iss := "test-fastify-app"
    aud := "test-fastify-app", sub := "test-fastify-app"
    iat := 0, exp := 100, nbf := none }

/-- A configuration whose credential lifetime is one second
(`expiresIn = 1000` milliseconds), as in spec §8's expiry property. -/
def cfgOneSecond : KeyConfig :=
  { secretKey := "secret-key"
    serverName := "fastify-app"
    expiresIn := 1000
    apiVersion := "v1"
    nodeEnv := "development" }

/-! ## Definitions: session cache (RedisService, src/unnamed/part_008) -/

/-- A cached session value `{token, expiresAt}` as serialized by
`AuthService.login`. -/
structure CacheEntry where
  token : Token
  expiresAt : Nat
deriving DecidableEq, Repr

/-- One Redis key slot: the stored value plus the absolute expiration
instant (in milliseconds) fixed by `SETEX` at write time; `none` when the
key carries no time-to-live. -/
structure RedisEntry where
  value : CacheEntry
  expireAtMs : Option Nat
deriving DecidableEq, Repr

/-- The Redis keyspace.  Expiry is modelled the way Redis applies it: an
entry whose expiration instant has passed is treated as absent by reads. -/
abbrev RedisState := List (String × RedisEntry)

/-- Whether an entry is still alive at `nowMs`. -/
def redisLive (e : RedisEntry) (nowMs : Nat) : Bool :=
  match e.expireAtMs with
  | none => true
  | some t => nowMs < t

/-- `RedisService.set(key, value, ttl)` (src/unnamed/part_008 lines
179–184): with a truthy `ttl` it issues `SETEX key ttl value`, whose TTL
argument Redis interprets as a count of **seconds**; with `ttl` absent or
`0` (falsy) it issues a plain `SET`.  Overwrites any previous entry under
`key`. -/
def redisSet (st : RedisState) (key : String) (v : CacheEntry)
    (ttl : Nat) (nowMs : Nat) : RedisState :=
  let e : RedisEntry :=
    { value := v
      expireAtMs := if ttl = 0 then none else some (nowMs + ttl * 1000) }
  (key, e) :: st.filter (fun kv => kv.1 ≠ key)

/-- `RedisService.get(key)`: the parsed value, or `none` for an absent or
expired key. -/
def redisGet (st : RedisState) (key : String) (nowMs : Nat) :
    Option CacheEntry :=
  match st.find? (fun kv => kv.1 == key) with
  | some kv => if redisLive kv.2 nowMs then some kv.2.value else none
  | none => none

/-- `RedisService.exists(key)` (Redis `EXISTS`, reported as a count and
used by the callers for its truthiness). -/
def redisExists (st : RedisState) (key : String) (nowMs : Nat) : Bool :=
  (redisGet st key nowMs).isSome

/-- `RedisService.del(key)`. -/
def redisDel (st : RedisState) (key : String) : RedisState :=
  st.filter (fun kv => kv.1 ≠ key)

/-! ## Definitions: accounts and AuthService (src/src/service/auth.service.ts) -/

/-- The slice of the Mongo `Account` document the login and reset-password
flows read and write.  `validatePassword` (a bcrypt comparison) is modelled
at its boundary as equality of the submitted password with the stored one. -/
structure Account where
  id : String
  username : String
  email : String
  password : String
  roles : List String
  /-- the Account Session Pointer: the `accessToken` field -/
  accessToken : String
  lastLoginAt : Nat
deriving DecidableEq, Repr

/-- The `LoginRequestBody` fields `login` reads. -/
structure LoginBody where
  username : String
  password : String
deriving DecidableEq, Repr

/-- The two stores `AuthService` touches: the account collection and the
session cache. -/
structure AuthState where
  accounts : List Account
  redis : RedisState
deriving DecidableEq, Repr

/-- The failure modes of the embedded `AuthService` operations.
`cacheInconsistent` marks the branch where `exists(handle)` succeeded but
the immediately following `get(handle)` returned null at the same instant;
it is unreachable in the model. -/
inductive AuthError
  | accountNotFound
  | invalidPassword
  | cacheInconsistent
deriving DecidableEq, Repr

/-- `Account.findOne({ $or: [{username}, {email: username}] })`. -/
def findAccount (accounts : List Account) (name : String) : Option Account :=
  accounts.find? (fun a => a.username == name || a.email == name)

/-- `user.updateLastLogin(accessToken)` followed by the implicit save:
update the matched document's session pointer and last-login time. -/
def saveLastLogin (accounts : List Account) (id handle : String)
    (nowMs : Nat) : List Account :=
  accounts.map (fun a =>
    if a.id == id then { a with accessToken := handle, lastLoginAt := nowMs }
    else a)

/-- The `TokenPayload` object `login` builds from the account's current
identity/role snapshot. -/
def loginPayload (user : Account) : TokenPayload :=
  { id := user.id, username := some user.username
    email := some user.email, role := user.roles, extra := [] }

/-- `AuthService.login` (src/src/service/auth.service.ts lines 25–69).
The generated UUID session handle is threaded as `newHandle` and the clock
as `nowMs`.  Branch 1 (pointer non-empty and cache hit) returns the cached
pair and leaves both stores untouched; branch 2 signs a fresh credential,
updates the account's pointer, and writes the cache under the new handle
with `ttl := KEY.expiresIn`. -/
def login (cfg : KeyConfig) (body : LoginBody) (st : AuthState)
    (nowMs : Nat) (newHandle : String) :
    Except AuthError (SignRes × AuthState) :=
  match findAccount st.accounts body.username with
  | none => .error .accountNotFound
  | some user =>
    if user.password ≠ body.password then .error .invalidPassword
    else if user.accessToken ≠ "" ∧
        redisExists st.redis user.accessToken nowMs = true then
      match redisGet st.redis user.accessToken nowMs with
      | some entry =>
        .ok ({ token := entry.token, expiresAt := entry.expiresAt }, st)
      | none => .error .cacheInconsistent
    else
      let res := sign (loginPayload user) cfg nowMs
      let accounts := saveLastLogin st.accounts user.id newHandle nowMs
      let redis := redisSet st.redis newHandle
        { token := res.token, expiresAt := res.expiresAt } cfg.expiresIn nowMs
      .ok (res, { accounts := accounts, redis := redis })

/-- `AuthService.resetPassword` (src/src/service/auth.service.ts lines
272–296).  NOTE: the source assigns `user.accessToken = ""` **before**
testing `if (await this.redisService.exists(user.accessToken))`, so the
existence test and the deletion target the empty-string key, never the old
session handle; the clearing itself always leaves the pointer `""`. -/
def resetPassword (st : AuthState) (id : String)
    (newPassword : Option String) (nowMs : Nat) :
    Except AuthError AuthState :=
  match st.accounts.find? (fun a => a.id == id) with
  | none => .error .accountNotFound
  | some user =>
    let password := newPassword.getD "123456"
    let redis :=
      if user.accessToken ≠ "" then
        if redisExists st.redis "" nowMs then redisDel st.redis "" else st.redis
      else st.redis
    let accounts := st.accounts.map (fun a =>
      if a.id == user.id then { a with accessToken := "", password := password }
      else a)
    .ok { accounts := accounts, redis := redis }

/-! ## Definitions: policy enforcer (src/src/middleware/index.ts,
src/src/config/casbin) -/

/-- The `PermissionResult` interface (matched policies are never produced
by `checkPermission` and are omitted). -/
structure PermissionResult where
  allowed : Bool
  reason : String
deriving DecidableEq, Repr

/-- The `RequestContext` interface.  The optional `eft` member is forwarded
by `ORMManager.checkPermission` as a fifth matcher argument whose
interpretation depends on the `model.conf` file absent from this snapshot;
the spec's ABAC context is the four attributes modelled here. -/
structure RequestContext where
  sub : String
  obj : String
  act : String
  env : String
deriving DecidableEq, Repr

/-- The outcome of awaiting `enforcer.enforce(...)`: a boolean decision, or
a thrown error (rule store unreachable, evaluation failure). -/
inductive EnforceOutcome
  | ok (allowed : Bool)
  | threw (msg : String)
deriving DecidableEq, Repr

/-- The configuration error thrown when the enforcer was never
initialized. -/
inductive ConfigError
  | enforcerNotInitialized
deriving DecidableEq, Repr

/-- `ORMManager.checkPermission` (src/src/middleware/index.ts lines
487–503): throws if the enforcer is missing; otherwise awaits the enforce
call and returns `{allowed, reason}`, mapping a thrown error to
`{allowed := false}` instead of propagating it. -/
def checkPermission (enforcer : Option (RequestContext → EnforceOutcome))
    (ctx : RequestContext) : Except ConfigError PermissionResult :=
  match enforcer with
  | none => .error .enforcerNotInitialized
  | some enforceFn =>
    match enforceFn ctx with
    | .ok allowed =>
      .ok { allowed := allowed
            reason := if allowed then "权限检查通过" else "权限检查失败" }
    | .threw _ => .ok { allowed := false, reason := "权限检查失败" }

/-- `PrismaManager.checkPermission` (src/src/config/casbin/prismaManager.ts
lines 67–81): identical control flow (its enforce call passes
`context.env || ""` and no fifth argument). -/
def prismaCheckPermission
    (enforcer : Option (RequestContext → EnforceOutcome))
    (ctx : RequestContext) : Except ConfigError PermissionResult :=
  match enforcer with
  | none => .error .enforcerNotInitialized
  | some enforceFn =>
    match enforceFn ctx with
    | .ok allowed =>
      .ok { allowed := allowed
            reason := if allowed then "权限检查通过" else "权限检查失败" }
    | .threw _ => .ok { allowed := false, reason := "权限检查失败" }

/-- A persisted policy rule row (an ordered string tuple). -/
abbrev PolicyRow := List String

/-- Modelled from the spec: one pattern position of the casbin matcher
(the repository's `model.conf` is missing from the snapshot) — a pattern
is a literal or the wildcard `*` (spec §3, §4.4). -/
def matchPattern (pat v : String) : Bool :=
  pat == "*" || pat == v

/-- Modelled from the spec: whether a rule row matches a context and allows
it.  Spec §6: rules are ordered string tuples of length 4–5
`(subject, object, action, [environment], [effect])`; spec §4.4: a context
is allowed when at least one matching rule has effect `allow`. -/
def rowAllows (ctx : RequestContext) (row : PolicyRow) : Bool :=
  match row with
  | [s, o, a, f] =>
    matchPattern s ctx.sub && matchPattern o ctx.obj &&
      matchPattern a ctx.act && (f == "allow")
  | [s, o, a, e, f] =>
    matchPattern s ctx.sub && matchPattern o ctx.obj &&
      matchPattern a ctx.act && matchPattern e ctx.env && (f == "allow")
  | _ => false

/-- Modelled from the spec: `enforcer.enforce` over a persisted rule
store. -/
def enforce (store : List PolicyRow) (ctx : RequestContext) : Bool :=
  store.any (rowAllows ctx)

/-- `ABAC_INIT_DATA.policies` (src/src/config/casbin/abac-data.ts lines
260–307), the fixed built-in seed rule set. -/
def abacPolicies : List PolicyRow :=
  [ ["super_admin", "*", "*", "allow"],
    ["system_admin", "user_management", "*", "*", "allow"],
    ["system_admin", "role_management", "*", "*", "allow"],
    ["system_admin", "resource_management", "*", "*", "allow"],
    ["system_admin", "system_management", "*", "*", "allow"],
    ["system_admin", "api_management", "*", "*", "allow"],
    ["system_admin", "system_log", "read", "*", "allow"],
    ["system_admin", "system_monitor", "read", "*", "allow"],
    ["user_admin", "user_list", "read", "*", "allow"],
    ["user_admin", "user_detail", "read", "*", "allow"],
    ["user_admin", "user_create", "create", "*", "allow"],
    ["user_admin", "user_edit", "update", "*", "allow"],
    ["user_admin", "user_delete", "delete", "*", "allow"],
    ["user_admin", "user_reset_password", "update", "*", "allow"],
    ["user_admin", "role_list", "read", "*", "allow"],
    ["user_admin", "role_detail", "read", "*", "allow"],
    ["content_admin", "user_list", "read", "*", "allow"],
    ["content_admin", "user_detail", "read", "*", "allow"],
    ["content_admin", "user_edit", "update", "*", "own"],
    ["content_admin", "system_log", "read", "*", "allow"],
    ["content_admin", "api_docs", "read", "*", "allow"],
    ["user", "user_detail", "read", "*", "own"],
    ["user", "user_edit", "update", "*", "own"],
    ["user", "api_docs", "read", "*", "allow"],
    ["user", "api_test", "execute", "*", "allow"],
    ["guest", "api_docs", "read", "*", "allow"],
    ["guest", "user_management", "*", "*", "deny"],
    ["guest", "role_management", "*", "*", "deny"],
    ["guest", "resource_management", "*", "*", "deny"],
    ["guest", "system_management", "*", "*", "deny"],
    ["user", "user_delete", "delete", "*", "deny"],
    ["user", "user_reset_password", "update", "*", "deny"] ]

/-- `ABAC_INIT_DATA.defaultPolicy` viewed as the request context passed to
`checkPermission` (its `eft: "*"` member would be a fifth matcher
argument; see `RequestContext`). -/
def defaultPolicyCtx : RequestContext :=
  { sub := "super", obj := "*", act := "*", env := "*" }

/-- In JavaScript, an object value is always truthy.
`initializeORMManager` tests `!(await ormManager.checkPermission(...))`,
the truthiness of the returned `PermissionResult` **object** — not of its
`allowed` field. -/
def permissionResultTruthy (_ : PermissionResult) : Bool :=
  true

/-- `initializeORMManager` (src/src/middleware/index.ts lines 728–732):
after `initialize()` installs the enforcer over the persisted rule
`store`, it calls `addPolicies(ABAC_INIT_DATA.policies)` only when
`!(await checkPermission(ABAC_INIT_DATA.defaultPolicy))` holds.  Returns
the resulting store and whether seeding happened. -/
def initializeORMManager (store : List PolicyRow) :
    List PolicyRow × Bool :=
  match checkPermission (some (fun ctx => .ok (enforce store ctx)))
      defaultPolicyCtx with
  | .error _ => (store, false)
  | .ok r =>
    if permissionResultTruthy r then (store, false)
    else (store ++ abacPolicies, true)

/-! ## Definitions: request context extractor (src/src/middleware/index.ts) -/

/-- JavaScript `String.prototype.split` with a one-character separator,
on the character list of the string: `""` splits to `[""]`, a leading or
trailing separator contributes an empty segment. -/
def splitCharAux (sep : Char) : List Char → List (List Char)
  | [] => [[]]
  | c :: cs =>
    let r := splitCharAux sep cs
    if c = sep then [] :: r
    else
      match r with
      | [] => [[c]]
      | h :: t => (c :: h) :: t

/-- JavaScript `s.split(sep)` for a one-character separator. -/
def jsSplit (s : String) (sep : Char) : List String :=
  (splitCharAux sep s.data).map (fun l => ⟨l⟩)

/-- JavaScript `s.toUpperCase()` for the ASCII strings handled here. -/
def jsToUpper (s : String) : String :=
  ⟨s.data.map Char.toUpper⟩

/-- JavaScript `s.toLowerCase()` for the ASCII strings handled here. -/
def jsToLower (s : String) : String :=
  ⟨s.data.map Char.toLower⟩

/-- The non-empty path segments of a URL after stripping the query string:
the decomposition both the source and the spec describe
(`url.split("?")[0]`, split on `/`, drop falsy segments). -/
def pathSegments (url : String) : List String :=
  (jsSplit ((jsSplit url '?').headD "") '/').filter (fun s => s ≠ "")

/-- `ORMManager.extractResourceFromPath` (src/src/middleware/index.ts lines
535–548).  The source's `segments[0] || "unknown"` and
`segments[1] || ""` index-plus-falsy-fallback accesses are modelled with
`headD` / `getD`; a filtered segment is never the empty string, so the
fallback fires exactly when the index is out of range. -/
def extractResourceFromPath (cfg : KeyConfig) (url : String) : String :=
  let segments := pathSegments url
  if segments.length = 0 then "root"
  else if segments.headD "" == cfg.apiVersion ∧ segments.length > 1 then
    segments.getD 1 ""
  else segments.headD "unknown"

/-- `ORMManager.extractActionFromMethod` (src/src/middleware/index.ts lines
553–563): a fixed method-to-verb map consulted with the upper-cased
method, falling back to the lower-cased method, then to `"unknown"` when
that is falsy (empty). -/
def extractActionFromMethod (method : String) : String :=
  let m := jsToUpper method
  if m == "GET" then "read"
  else if m == "POST" then "create"
  else if m == "PUT" then "update"
  else if m == "PATCH" then "update"
  else if m == "DELETE" then "delete"
  else if jsToLower method == "" then "unknown"
  else jsToLower method

/-- The `iat` claim embedded in a token (0 for a malformed token): tokens
signed at different Unix seconds are distinct. -/
def tokenIat : Token → Nat
  | .signed c _ => c.iat
  | .malformed _ => 0

/-! ## Definitions: demo fixtures for the stateful flows -/

/-- A fresh account with an empty session pointer. -/
def demoAccount : Account :=
  { id := "u1", username := "alice", email := "alice@example.com"
    password := "pw", roles := ["user"], accessToken := "", lastLoginAt := 0 }

/-- The matching login request body. -/
def demoBody : LoginBody :=
  { username := "alice", password := "pw" }

/-- A system state holding only the fresh account and an empty cache. -/
def demoState : AuthState :=
  { accounts := [demoAccount], redis := [] }

/-- A cache entry unrelated to any signing instant, for exercising the
cache-hit path. -/
def demoEntry : CacheEntry :=
  { token := .malformed "cached-token", expiresAt := 42 }

/-- A state where the account's pointer names a live cache entry. -/
def demoStateCached : AuthState :=
  { accounts := [{ demoAccount with accessToken := "h0" }]
    redis := [("h0", { value := demoEntry, expireAtMs := none })] }

/-! ## Theorems: credential codec -/

/-- Unfolding of `verify ∘ sign` at the signing instant. -/
theorem verify_sign_eval (payload : TokenPayload) (cfg : KeyConfig)
    (nowMs : Nat) (h : 0 < cfg.expiresIn) :
    verify (sign payload cfg nowMs).token cfg nowMs = .ok payload := by
  simp only [verify, sign, jwtSign, jwtVerify]
  have hexp : ¬ (nowMs / 1000 + cfg.expiresIn ≤ nowMs / 1000) := by omega
  simp [hexp, Except.map]

/-- Altering any character of a string to a different character yields a
different string. -/
theorem setCharAt_ne (s : String) (i : Nat) (c : Char)
    (hi : i < s.data.length) (hc : c ≠ s.data.get ⟨i, hi⟩) :
    setCharAt s i c ≠ s := by
  intro h
  have hdata : s.data.set i c = s.data := congrArg String.data h
  have hlen : i < (s.data.set i c).length := by
    simpa [List.length_set] using hi
  have h1 : (s.data.set i c).getD i c = s.data.getD i c :=
    congrArg (fun l => l.getD i c) hdata
  rw [List.getD_eq_getElem _ _ hlen, List.getD_eq_getElem _ _ hi,
    List.getElem_set_self] at h1
  exact hc (by simpa [List.get_eq_getElem] using h1)

/-- Every failure clause of the spec makes `verify` reject with some
`InvalidCredential` condition. -/
theorem verify_error_of_clause (cfg : KeyConfig) (claims : JwtClaims)
    (sig : String) (t : Nat)
    (h : sig ≠ macSig cfg.secretKey claims ∨
         claims.aud ≠ cfg.serverName ∨
         claims.iss ≠ cfg.serverName ∨
         claims.sub ≠ cfg.serverName ∨
         claims.exp ≤ t / 1000 ∨
         (∃ n, claims.nbf = some n ∧ t / 1000 < n)) :
    ∃ e, verify (.signed claims sig) cfg t = .error e := by
  by_cases hsig : sig = macSig cfg.secretKey claims
  · rcases hnbf : claims.nbf with _ | n
    · by_cases hexp : claims.exp ≤ t / 1000
      · exact ⟨.expired, by simp [verify, jwtVerify, hsig, hnbf, hexp, Except.map]⟩
      · by_cases haud : claims.aud = cfg.serverName
        · by_cases hiss : claims.iss = cfg.serverName
          · by_cases hsub : claims.sub = cfg.serverName
            · exfalso
              rcases h with h | h | h | h | h | ⟨n, hn, _⟩
              · exact h hsig
              · exact h haud
              · exact h hiss
              · exact h hsub
              · exact hexp h
              · rw [hnbf] at hn; cases hn
            · exact ⟨.subjectMismatch, by
                simp [verify, jwtVerify, hsig, hnbf, hexp, haud, hiss, hsub, Except.map]⟩
          · exact ⟨.issuerMismatch, by
              simp [verify, jwtVerify, hsig, hnbf, hexp, haud, hiss, Except.map]⟩
        · exact ⟨.audienceMismatch, by
            simp [verify, jwtVerify, hsig, hnbf, hexp, haud, Except.map]⟩
    · by_cases hnb : t / 1000 < n
      · exact ⟨.notActive, by simp [verify, jwtVerify, hsig, hnbf, hnb, Except.map]⟩
      · by_cases hexp : claims.exp ≤ t / 1000
        · exact ⟨.expired, by simp [verify, jwtVerify, hsig, hnbf, hnb, hexp, Except.map]⟩
        · by_cases haud : claims.aud = cfg.serverName
          · by_cases hiss : claims.iss = cfg.serverName
            · by_cases hsub : claims.sub = cfg.serverName
              · exfalso
                rcases h with h | h | h | h | h | ⟨m, hm, hlt⟩
                · exact h hsig
                · exact h haud
                · exact h hiss
                · exact h hsub
                · exact hexp h
                · rw [hnbf] at hm
                  injection hm with hm
                  subst hm
                  exact hnb hlt
              · exact ⟨.subjectMismatch, by
                  simp [verify, jwtVerify, hsig, hnbf, hnb, hexp, haud, hiss, hsub,
                    Except.map]⟩
            · exact ⟨.issuerMismatch, by
                simp [verify, jwtVerify, hsig, hnbf, hnb, hexp, haud, hiss, Except.map]⟩
          · exact ⟨.audienceMismatch, by
              simp [verify, jwtVerify, hsig, hnbf, hnb, hexp, haud, Except.map]⟩
  · exact ⟨.invalidSignature, by simp [verify, jwtVerify, hsig, Except.map]⟩

/-- C1: for every valid credential payload, verifying the token produced by
signing it succeeds, and the returned payload's subject identifier (id),
username, and role list equal the corresponding fields of the original
payload.  (The verification is performed at the signing instant; the
process-wide lifetime is positive.) -/
theorem C1_sign_verify_round_trip (payload : TokenPayload) (cfg : KeyConfig)
    (nowMs : Nat) (h : 0 < cfg.expiresIn) :
    ∃ p, verify (sign payload cfg nowMs).token cfg nowMs = .ok p ∧
      p.id = payload.id ∧ p.username = payload.username ∧
      p.role = payload.role :=
  ⟨payload, verify_sign_eval payload cfg nowMs h, rfl, rfl, rfl⟩

/-- Witness for C1 at the repository's own test fixture. -/
theorem C1_witness :
    0 < testCfg.expiresIn ∧
    ∃ p, verify (sign testPayload testCfg 1700000000000).token testCfg
        1700000000000 = .ok p ∧
      p.id = testPayload.id ∧ p.username = testPayload.username ∧
      p.role = testPayload.role :=
  ⟨by decide,
   C1_sign_verify_round_trip testPayload testCfg 1700000000000 (by decide)⟩

/-- C2: `verify` fails with an `InvalidCredential` condition whenever
(1) any character of a signed token's signature segment is altered,
(2) the audience, issuer or subject claim differs from the fixed service
name, (3) the token is structurally malformed, or (4) the token is expired
or not yet valid; otherwise it returns the embedded payload. -/
theorem C2_verify_failure_modes :
    (∀ (payload : TokenPayload) (cfg : KeyConfig) (nowMs t i : Nat) (c : Char),
      ∀ hi : i < (sigSegment (sign payload cfg nowMs).token).data.length,
      c ≠ (sigSegment (sign payload cfg nowMs).token).data.get ⟨i, hi⟩ →
      verify (tamperSig (sign payload cfg nowMs).token i c) cfg t =
        .error .invalidSignature) ∧
    (∀ (cfg : KeyConfig) (claims : JwtClaims) (sig : String) (t : Nat),
      (claims.aud ≠ cfg.serverName ∨ claims.iss ≠ cfg.serverName ∨
        claims.sub ≠ cfg.serverName) →
      ∃ e, verify (.signed claims sig) cfg t = .error e) ∧
    (∀ (cfg : KeyConfig) (raw : String) (t : Nat),
      verify (.malformed raw) cfg t = .error .malformedToken) ∧
    (∀ (cfg : KeyConfig) (claims : JwtClaims) (sig : String) (t : Nat),
      (claims.exp ≤ t / 1000 ∨ (∃ n, claims.nbf = some n ∧ t / 1000 < n)) →
      ∃ e, verify (.signed claims sig) cfg t = .error e) ∧
    (∀ (cfg : KeyConfig) (claims : JwtClaims) (t : Nat),
      claims.aud = cfg.serverName → claims.iss = cfg.serverName →
      claims.sub = cfg.serverName → t / 1000 < claims.exp →
      (∀ n, claims.nbf = some n → n ≤ t / 1000) →
      verify (.signed claims (macSig cfg.secretKey claims)) cfg t =
        .ok claims.payload) := by
  refine ⟨?_, ?_, ?_, ?_, ?_⟩
  · intro payload cfg nowMs t i c hi hc
    simp only [sign, jwtSign, sigSegment] at hi hc
    have hne := setCharAt_ne _ i c hi hc
    simp only [sign, jwtSign, tamperSig]
    simp [verify, jwtVerify, hne, Except.map]
  · intro cfg claims sig t h
    apply verify_error_of_clause
    rcases h with h | h | h
    · exact Or.inr (Or.inl h)
    · exact Or.inr (Or.inr (Or.inl h))
    · exact Or.inr (Or.inr (Or.inr (Or.inl h)))
  · intro cfg raw t
    simp [verify, jwtVerify, Except.map]
  · intro cfg claims sig t h
    apply verify_error_of_clause
    rcases h with h | h
    · exact Or.inr (Or.inr (Or.inr (Or.inr (Or.inl h))))
    · exact Or.inr (Or.inr (Or.inr (Or.inr (Or.inr h))))
  · intro cfg claims t haud hiss hsub hexp hnbf
    rcases hn : claims.nbf with _ | n
    · have h1 : ¬ claims.exp ≤ t / 1000 := by omega
      simp [verify, jwtVerify, hn, h1, haud, hiss, hsub, Except.map]
    · have h2 : ¬ t / 1000 < n := by
        have := hnbf n hn
        omega
      have h1 : ¬ claims.exp ≤ t / 1000 := by omega
      simp [verify, jwtVerify, hn, h1, h2, haud, hiss, hsub, Except.map]

/-- Witness for C2: each failure mode exercised at a concrete input, and
the success mode returning the embedded payload. -/
theorem C2_witness :
    verify (tamperSig (sign testPayload testCfg 1000).token 0 'A') testCfg
        1000 = .error .invalidSignature ∧
    (∃ e, verify (.signed claimsBadAud "x") testCfg 0 = .error e) ∧
    verify (.malformed "not-a-jwt-token") testCfg 0 =
      .error .malformedToken ∧
    (∃ e, verify (.signed claimsExpired "y") testCfg 10000 = .error e) ∧
    verify (.signed claimsGood (macSig testCfg.secretKey claimsGood)) testCfg
        1000 = .ok claimsGood.payload :=
  ⟨C2_verify_failure_modes.1 testPayload testCfg 1000 1000 0 'A' (by decide)
      (by decide),
   C2_verify_failure_modes.2.1 testCfg claimsBadAud "x" 0 (Or.inl (by decide)),
   C2_verify_failure_modes.2.2.1 testCfg "not-a-jwt-token" 0,
   C2_verify_failure_modes.2.2.2.1 testCfg claimsExpired "y" 10000
     (Or.inl (by decide)),
   C2_verify_failure_modes.2.2.2.2 testCfg claimsGood 1000 (by decide)
     (by decide) (by decide) (by decide) (by intro n hn; cases hn)⟩

/-- C5 (code bug): with a one-second lifetime (`expiresIn = 1000`
milliseconds), the reported expiry is `issued_at + 1` second as the claim
requires, but the token's clock-bound validity window does not agree with
it: `verify` still succeeds two seconds after signing, because the
millisecond lifetime is passed to the encoding library's numeric
`expiresIn` option, which counts seconds — the embedded `exp` claim is
1000 seconds after issuance instead of one. -/
theorem C5_lifetime_window_mismatch :
    (sign testPayload cfgOneSecond 0).expiresAt = 1 ∧
    verify (sign testPayload cfgOneSecond 0).token cfgOneSecond 2000 =
      .ok testPayload ∧
    (∃ claims sig, (sign testPayload cfgOneSecond 0).token =
        .signed claims sig ∧ claims.exp = 1000) :=
  ⟨rfl, by rfl, ⟨_, _, rfl, rfl⟩⟩

/-! ## Theorems: policy enforcer -/

/-- C6: for every request context, if the underlying rule-store enforcement
call throws, both `ORMManager.checkPermission` and
`PrismaManager.checkPermission` return `allowed = false` instead of
propagating the exception to the caller. -/
theorem C6_check_fails_closed (enf : RequestContext → EnforceOutcome)
    (ctx : RequestContext) (msg : String) (h : enf ctx = .threw msg) :
    checkPermission (some enf) ctx =
      .ok { allowed := false, reason := "权限检查失败" } ∧
    prismaCheckPermission (some enf) ctx =
      .ok { allowed := false, reason := "权限检查失败" } := by
  constructor <;> simp [checkPermission, prismaCheckPermission, h]

/-- Witness for C6: an enforcer whose store is unreachable. -/
theorem C6_witness :
    checkPermission (some (fun _ => .threw "connect ECONNREFUSED"))
        defaultPolicyCtx =
      .ok { allowed := false, reason := "权限检查失败" } ∧
    prismaCheckPermission (some (fun _ => .threw "connect ECONNREFUSED"))
        defaultPolicyCtx =
      .ok { allowed := false, reason := "权限检查失败" } :=
  C6_check_fails_closed (fun _ => .threw "connect ECONNREFUSED")
    defaultPolicyCtx "connect ECONNREFUSED" rfl

/-- C7 counterexample: a store with zero rules is **not** seeded by the
startup step, contradicting "seeds if and only if the store contains zero
rules". -/
theorem C7_counterexample :
    initializeORMManager [] = ([], false) := rfl

/-- C7 (amended): the startup step gates seeding on the JavaScript
truthiness of the `PermissionResult` object returned by
`checkPermission(defaultPolicy)`; an object is always truthy, so the
seeding branch is unreachable and the store is returned unchanged for
every store — empty or not. -/
theorem C7_seeding_never_fires (store : List PolicyRow) :
    initializeORMManager store = (store, false) := by
  simp [initializeORMManager, checkPermission, permissionResultTruthy]

/-! ## Theorems: request context extractor -/

/-- A string whose lower-casing is empty is empty. -/
theorem jsToLower_ne_empty (m : String) (hm : m ≠ "") : jsToLower m ≠ "" := by
  intro h
  apply hm
  have hd : m.data.map Char.toLower = [] := congrArg String.data h
  have hnil : m.data = [] := List.map_eq_nil_iff.mp hd
  cases m
  simp_all

/-- C8: the extractor maps GET→read, POST→create, PUT→update,
PATCH→update, DELETE→delete and any other (non-empty) method to its
lower-cased name; object extraction strips the query string, splits on
`/`, drops empty segments, takes the segment after a leading API-version
segment, the first segment otherwise, and maps a zero-segment path to
`root`; in particular `/v1/orders/42?x=1` with DELETE yields
`orders`/`delete` and `/` yields `root`. -/
theorem C8_context_extractor :
    extractActionFromMethod "GET" = "read" ∧
    extractActionFromMethod "POST" = "create" ∧
    extractActionFromMethod "PUT" = "update" ∧
    extractActionFromMethod "PATCH" = "update" ∧
    extractActionFromMethod "DELETE" = "delete" ∧
    (∀ m : String, m ≠ "" →
      jsToUpper m ≠ "GET" → jsToUpper m ≠ "POST" → jsToUpper m ≠ "PUT" →
      jsToUpper m ≠ "PATCH" → jsToUpper m ≠ "DELETE" →
      extractActionFromMethod m = jsToLower m) ∧
    (∀ (cfg : KeyConfig) (url : String), pathSegments url = [] →
      extractResourceFromPath cfg url = "root") ∧
    (∀ (cfg : KeyConfig) (url s0 s1 : String) (rest : List String),
      pathSegments url = s0 :: s1 :: rest → s0 = cfg.apiVersion →
      extractResourceFromPath cfg url = s1) ∧
    (∀ (cfg : KeyConfig) (url s0 : String) (rest : List String),
      pathSegments url = s0 :: rest → s0 ≠ cfg.apiVersion →
      extractResourceFromPath cfg url = s0) ∧
    extractResourceFromPath testCfg "/v1/orders/42?x=1" = "orders" ∧
    extractResourceFromPath testCfg "/" = "root" := by
  refine ⟨by decide, by decide, by decide, by decide, by decide,
    ?_, ?_, ?_, ?_, by decide, by decide⟩
  · intro m hm h1 h2 h3 h4 h5
    simp [extractActionFromMethod, h1, h2, h3, h4, h5,
      jsToLower_ne_empty m hm]
  · intro cfg url h
    simp [extractResourceFromPath, h]
  · intro cfg url s0 s1 rest h hv
    subst hv
    simp [extractResourceFromPath, h]
  · intro cfg url s0 rest h hv
    simp [extractResourceFromPath, h, hv]

/-- Witness for C8: the universally quantified clauses at concrete
inputs. -/
theorem C8_witness :
    extractActionFromMethod "OPTIONS" = jsToLower "OPTIONS" ∧
    extractResourceFromPath testCfg "" = "root" ∧
    extractResourceFromPath testCfg "/v1/orders" = "orders" ∧
    extractResourceFromPath testCfg "/health" = "health" := by
  obtain ⟨-, -, -, -, -, hOther, hRoot, hVer, hNonVer, -, -⟩ :=
    C8_context_extractor
  exact ⟨hOther "OPTIONS" (by decide) (by decide) (by decide) (by decide)
      (by decide) (by decide),
    hRoot testCfg "" (by decide),
    hVer testCfg "/v1/orders" "v1" "orders" [] (by decide) (by decide),
    hNonVer testCfg "/health" "health" [] (by decide) (by decide)⟩

/-- C10: a path whose only non-empty segment is the API-version token
itself yields that token as the object — not `root`, `unknown`, or a
following segment. -/
theorem C10_version_only_path (cfg : KeyConfig) (url : String)
    (h : pathSegments url = [cfg.apiVersion]) :
    extractResourceFromPath cfg url = cfg.apiVersion := by
  simp [extractResourceFromPath, h]

/-- Witness for C10 at `/v1` and `/v1/`. -/
theorem C10_witness :
    pathSegments "/v1" = [testCfg.apiVersion] ∧
    extractResourceFromPath testCfg "/v1" = testCfg.apiVersion ∧
    extractResourceFromPath testCfg "/v1/" = testCfg.apiVersion :=
  ⟨by decide, C10_version_only_path testCfg "/v1" (by decide),
    C10_version_only_path testCfg "/v1/" (by decide)⟩

/-! ## Theorems: AuthService flows -/

/-- C9 (code bug): resetting the password of an account whose pointer
names a live cache entry leaves that entry in the cache — the source
clears the pointer before computing the key to test and delete, so it
probes the empty-string key.  The pointer itself is cleared. -/
theorem C9_reset_leaves_cached_entry :
    ∃ st2, resetPassword demoStateCached "u1" none 0 = .ok st2 ∧
      redisGet st2.redis "h0" 0 = some demoEntry ∧
      st2.accounts.find? (fun a => a.id == "u1") =
        some { demoAccount with accessToken := "", password := "123456" } := by
  refine ⟨_, rfl, ?_, ?_⟩ <;> decide

/-- C4 (code bug): a login that misses the cache writes the fresh entry
under the new handle, but the store-enforced TTL it passes is
`KEY.expiresIn` — the lifetime in **milliseconds** — which `SETEX` counts
as seconds: the entry expires at millisecond 86400000 · 1000, a thousand
times the credential lifetime of 86400 seconds reported by
`expiresAt`. -/
theorem C4_cache_ttl_unit_mismatch :
    ∃ res st1, login testCfg demoBody demoState 0 "h1" = .ok (res, st1) ∧
      redisGet st1.redis "h1" 0 =
        some { token := res.token, expiresAt := res.expiresAt } ∧
      (st1.redis.find? (fun kv => kv.1 == "h1")).map
          (fun kv => kv.2.expireAtMs) = some (some 86400000000) ∧
      res.expiresAt = 86400 ∧
      testCfg.expiresIn / 1000 = 86400 := by
  refine ⟨_, _, rfl, ?_, ?_, ?_, ?_⟩ <;> decide

/-- `find?` only depends on the pointwise behaviour of its predicate. -/
theorem find?_pred_congr {α : Type} (p q : α → Bool) (h : ∀ a, p a = q a) :
    ∀ l : List α, l.find? p = l.find? q
  | [] => rfl
  | a :: l => by
    simp only [List.find?, h a]
    cases q a
    · exact find?_pred_congr p q h l
    · rfl

/-- `updateLastLogin` touches only the session pointer and timestamp, so
account lookup by username/email finds the updated document. -/
theorem findAccount_saveLastLogin (accounts : List Account)
    (name id handle : String) (t : Nat) :
    findAccount (saveLastLogin accounts id handle t) name =
      (findAccount accounts name).map (fun a =>
        if a.id == id then { a with accessToken := handle, lastLoginAt := t }
        else a) := by
  unfold findAccount saveLastLogin
  rw [List.find?_map]
  congr 1
  apply find?_pred_congr
  intro a
  by_cases hid : a.id == id <;> simp [Function.comp, hid]

/-- A successful cache read implies `EXISTS` reports the key. -/
theorem redisExists_of_get {st : RedisState} {k : String} {now : Nat}
    {entry : CacheEntry} (h : redisGet st k now = some entry) :
    redisExists st k now = true := by
  simp [redisExists, h]

/-- Reading back a `SETEX`-written key before its expiration instant. -/
theorem redisGet_set_self (st : RedisState) (key : String) (v : CacheEntry)
    (ttl now t : Nat) (httl : ttl ≠ 0) (hlive : t < now + ttl * 1000) :
    redisGet (redisSet st key v ttl now) key t = some v := by
  simp [redisSet, redisGet, redisLive, List.find?, httl, hlive]

/-- Reading back a `SETEX`-written key at or after its expiration
instant. -/
theorem redisGet_set_dead (st : RedisState) (key : String) (v : CacheEntry)
    (ttl now t : Nat) (httl : ttl ≠ 0) (hdead : ¬ t < now + ttl * 1000) :
    redisGet (redisSet st key v ttl now) key t = none := by
  simp [redisSet, redisGet, redisLive, List.find?, httl, hdead]

/-- Evaluation of `login` on the cache-hit branch: the cached pair is
returned and the state is untouched. -/
theorem login_reuse_eval (cfg : KeyConfig) (body : LoginBody)
    (st : AuthState) (nowMs : Nat) (newHandle : String) (user : Account)
    (entry : CacheEntry)
    (hfind : findAccount st.accounts body.username = some user)
    (hpw : user.password = body.password)
    (hat : user.accessToken ≠ "")
    (hget : redisGet st.redis user.accessToken nowMs = some entry) :
    login cfg body st nowMs newHandle =
      .ok ({ token := entry.token, expiresAt := entry.expiresAt }, st) := by
  simp [login, hfind, hpw, hat, redisExists_of_get hget, hget]

/-- Evaluation of `login` on the cache-miss branch: a fresh credential is
signed, the pointer updated, and the cache written under the new handle. -/
theorem login_mint_eval (cfg : KeyConfig) (body : LoginBody)
    (st : AuthState) (nowMs : Nat) (newHandle : String) (user : Account)
    (hfind : findAccount st.accounts body.username = some user)
    (hpw : user.password = body.password)
    (hat : ¬(user.accessToken ≠ "" ∧
      redisExists st.redis user.accessToken nowMs = true)) :
    login cfg body st nowMs newHandle =
      .ok (sign (loginPayload user) cfg nowMs,
        { accounts := saveLastLogin st.accounts user.id newHandle nowMs
          redis := redisSet st.redis newHandle
            { token := (sign (loginPayload user) cfg nowMs).token
              expiresAt := (sign (loginPayload user) cfg nowMs).expiresAt }
            cfg.expiresIn nowMs }) := by
  simp [login, hfind, hpw, hat]

/-- Tokens signed at different Unix seconds differ (the `iat` claim is
time-variant). -/
theorem sign_token_ne (p1 p2 : TokenPayload) (cfg : KeyConfig)
    (t1 t2 : Nat) (h : t1 / 1000 ≠ t2 / 1000) :
    (sign p1 cfg t1).token ≠ (sign p2 cfg t2).token := by
  intro heq
  apply h
  have hiat := congrArg tokenIat heq
  simpa [sign, jwtSign, tokenIat] using hiat

/-- C3: (1) when the stored session pointer is non-empty and its handle is
in the cache, `login` returns the cached pair unchanged and writes neither
store; consequently (2) two sequential logins with no intervening expiry
return the identical token (and state), while (3) a login after the cached
entry's expiry mints and returns a different token. -/
theorem C3_session_cache_reuse :
    (∀ (cfg : KeyConfig) (body : LoginBody) (st : AuthState) (nowMs : Nat)
        (newHandle : String) (user : Account) (entry : CacheEntry),
      findAccount st.accounts body.username = some user →
      user.password = body.password →
      user.accessToken ≠ "" →
      redisGet st.redis user.accessToken nowMs = some entry →
      login cfg body st nowMs newHandle =
        .ok ({ token := entry.token, expiresAt := entry.expiresAt }, st)) ∧
    (∀ (cfg : KeyConfig) (body : LoginBody) (st : AuthState)
        (now1 now2 : Nat) (h1 h2 : String) (user : Account)
        (res1 : SignRes) (st1 : AuthState),
      0 < cfg.expiresIn →
      findAccount st.accounts body.username = some user →
      user.password = body.password →
      user.accessToken = "" →
      h1 ≠ "" →
      login cfg body st now1 h1 = .ok (res1, st1) →
      now2 < now1 + cfg.expiresIn * 1000 →
      login cfg body st1 now2 h2 = .ok (res1, st1)) ∧
    (∀ (cfg : KeyConfig) (body : LoginBody) (st : AuthState)
        (now1 now2 : Nat) (h1 h2 : String) (user : Account)
        (res1 : SignRes) (st1 : AuthState),
      0 < cfg.expiresIn →
      findAccount st.accounts body.username = some user →
      user.password = body.password →
      user.accessToken = "" →
      h1 ≠ "" →
      login cfg body st now1 h1 = .ok (res1, st1) →
      now1 + cfg.expiresIn * 1000 ≤ now2 →
      ∃ res2 st2, login cfg body st1 now2 h2 = .ok (res2, st2) ∧
        res2.token ≠ res1.token) := by
  refine ⟨?_, ?_, ?_⟩
  · intro cfg body st nowMs newHandle user entry hfind hpw hat hget
    exact login_reuse_eval cfg body st nowMs newHandle user entry
      hfind hpw hat hget
  · intro cfg body st now1 now2 h1 h2 user res1 st1 hE hfind hpw hat hh1
      hrun hlive
    have hmint := login_mint_eval cfg body st now1 h1 user hfind hpw
      (by simp [hat])
    rw [hmint] at hrun
    injection hrun with hp
    injection hp with hres hst
    subst hres
    subst hst
    have hfind2 : findAccount
        (saveLastLogin st.accounts user.id h1 now1) body.username =
        some { user with accessToken := h1, lastLoginAt := now1 } := by
      rw [findAccount_saveLastLogin, hfind]
      simp
    have hget2 := redisGet_set_self st.redis h1
      { token := (sign (loginPayload user) cfg now1).token
        expiresAt := (sign (loginPayload user) cfg now1).expiresAt }
      cfg.expiresIn now1 now2 (by omega) hlive
    exact login_reuse_eval cfg body
      ⟨saveLastLogin st.accounts user.id h1 now1,
        redisSet st.redis h1
          { token := (sign (loginPayload user) cfg now1).token
            expiresAt := (sign (loginPayload user) cfg now1).expiresAt }
          cfg.expiresIn now1⟩
      now2 h2 { user with accessToken := h1, lastLoginAt := now1 }
      { token := (sign (loginPayload user) cfg now1).token
        expiresAt := (sign (loginPayload user) cfg now1).expiresAt }
      hfind2 hpw hh1 hget2
  · intro cfg body st now1 now2 h1 h2 user res1 st1 hE hfind hpw hat hh1
      hrun hexp
    have hmint := login_mint_eval cfg body st now1 h1 user hfind hpw
      (by simp [hat])
    rw [hmint] at hrun
    injection hrun with hp
    injection hp with hres hst
    subst hres
    subst hst
    have hfind2 : findAccount
        (saveLastLogin st.accounts user.id h1 now1) body.username =
        some { user with accessToken := h1, lastLoginAt := now1 } := by
      rw [findAccount_saveLastLogin, hfind]
      simp
    have hget2 := redisGet_set_dead st.redis h1
      { token := (sign (loginPayload user) cfg now1).token
        expiresAt := (sign (loginPayload user) cfg now1).expiresAt }
      cfg.expiresIn now1 now2 (by omega) (by omega)
    have hex2 : redisExists
        (redisSet st.redis h1
          { token := (sign (loginPayload user) cfg now1).token
            expiresAt := (sign (loginPayload user) cfg now1).expiresAt }
          cfg.expiresIn now1) h1 now2 = false := by
      simp [redisExists, hget2]
    have hmint2 := login_mint_eval cfg body
      ⟨saveLastLogin st.accounts user.id h1 now1,
        redisSet st.redis h1
          { token := (sign (loginPayload user) cfg now1).token
            expiresAt := (sign (loginPayload user) cfg now1).expiresAt }
          cfg.expiresIn now1⟩
      now2 h2 { user with accessToken := h1, lastLoginAt := now1 } hfind2 hpw
      (by simp [hex2])
    refine ⟨_, _, hmint2, ?_⟩
    exact sign_token_ne _ _ cfg now2 now1 (by omega)

/-- Witness for C3: the cache-hit branch on a cached state, two sequential
logins from a fresh state inside the lifetime window, and a third login
after the window yielding a different token. -/
theorem C3_witness :
    login testCfg demoBody demoStateCached 5 "hX" =
      .ok ({ token := demoEntry.token, expiresAt := demoEntry.expiresAt },
        demoStateCached) ∧
    (∃ res1 st1, login testCfg demoBody demoState 0 "h1" = .ok (res1, st1) ∧
      login testCfg demoBody st1 500000 "h2" = .ok (res1, st1)) ∧
    (∃ res1 st1 res2 st2,
      login testCfg demoBody demoState 0 "h1" = .ok (res1, st1) ∧
      login testCfg demoBody st1 986400000000 "h2" = .ok (res2, st2) ∧
      res2.token ≠ res1.token) := by
  refine ⟨?_, ?_, ?_⟩
  · exact C3_session_cache_reuse.1 testCfg demoBody demoStateCached 5 "hX"
      { demoAccount with accessToken := "h0" } demoEntry (by decide)
      (by decide) (by decide) (by decide)
  · refine ⟨_, _, rfl, ?_⟩
    exact C3_session_cache_reuse.2.1 testCfg demoBody demoState 0 500000
      "h1" "h2" demoAccount _ _ (by decide) (by decide) (by decide)
      (by decide) (by decide) rfl (by decide)
  · obtain ⟨res2, st2, hrun2, hne⟩ :=
      C3_session_cache_reuse.2.2 testCfg demoBody demoState 0 986400000000
        "h1" "h2" demoAccount _ _ (by decide) (by decide) (by decide)
        (by decide) (by decide) rfl (by decide)
    exact ⟨_, _, res2, st2, rfl, hrun2, hne⟩

end Fastify
